import Mathlib

/-!
# Verification of the Quartr job-submission and progress-tracking subsystem

Shallow embedding of `quartr_streamlit.py`: the poll routine
`check_task_status`, the queue health probe `test_queue_connection`,
the startup environment-variable validation in `main`, and the
form-submission validation in `main`.
-/

namespace Quartr

/-- A task-result dictionary as stored by the worker in the result
store.  Every field is optional, mirroring `dict.get` with a default
in the Python source. -/
structure TaskResult where
  status : Option String
  total : Option Nat
  processed : Option Nat
  success : Option Nat
  failed : Option Nat
  error : Option String
deriving DecidableEq, Repr

/-- The Streamlit session state fields touched by `check_task_status`.
The three `*_container` booleans record whether the corresponding
`st.empty()` placeholder has been stored in session state. -/
structure SessionState where
  task_id : Option String
  progress_container : Bool
  status_container : Bool
  results_container : Bool
deriving DecidableEq, Repr

/-- One visible rendering action performed during a poll tick. -/
inductive RenderAction where
  | progressBar (value : ℚ)
  | statusText (s : String)
  | resultsText (s : String)
  | errorMsg (s : String)
deriving DecidableEq, Repr

/-- Outcome of `huey.result(task_id)`: an exception message, or
`none` (no snapshot yet), or a snapshot dictionary. -/
abbrev StoreRead := Except String (Option TaskResult)

/-- Lines 57-62 of the source: create the persistent containers in
session state if they do not exist. -/
def ensureContainers (s : SessionState) : SessionState :=
  { s with progress_container := true, status_container := true,
           results_container := true }

/-- `check_task_status` (source lines 53-113): reads the snapshot for
the held task id and renders it, returning the updated session state
and the list of render actions for this tick. -/
def check_task_status (s : SessionState) (read : StoreRead) :
    SessionState × List RenderAction :=
  match s.task_id with
  | none => (s, [])
  | some _ =>
    let s1 := ensureContainers s
    match read with
    | .error e =>
        ({ s1 with task_id := none },
         [.errorMsg ("Error checking task status: " ++ e)])
    | .ok none => (s1, [])
    | .ok (some r) =>
        if r.status = some "In Progress" then
          let total := r.total.getD 0
          let processed := r.processed.getD 0
          let progress : ℚ := if total > 0 then (processed : ℚ) / total else 0
          let success := r.success.getD 0
          let failed := r.failed.getD 0
          (s1,
           [.progressBar progress,
            .statusText ("Processing files: " ++ toString processed ++ "/"
              ++ toString total),
            .resultsText ("Successful uploads: " ++ toString success
              ++ "\nFailed uploads: " ++ toString failed)])
        else if r.status = some "Complete" then
          ({ s1 with task_id := none },
           [.progressBar 1,
            .statusText "Processing complete!",
            .resultsText ("Final results:\nTotal files processed: "
              ++ toString (r.total.getD 0)
              ++ "\nSuccessful uploads: " ++ toString (r.success.getD 0)
              ++ "\nFailed uploads: " ++ toString (r.failed.getD 0))])
        else if r.status = some "Failed" then
          ({ s1 with task_id := none },
           [.errorMsg ("Processing failed: " ++ r.error.getD "Unknown error")])
        else
          (s1, [])

/-- The progress-bar value rendered on a tick, if any. -/
def renderedProgress : List RenderAction → Option ℚ
  | [] => none
  | .progressBar v :: _ => some v
  | _ :: rest => renderedProgress rest

/-- The possible outcomes of the bounded wait
`task.get(blocking=True, timeout=15)` in `test_queue_connection`:
a response value arrives, the backend reports a task-execution
failure (`TaskException`), or the wait times out (`TimeoutError`). -/
inductive WaitOutcome where
  | response (s : String)
  | taskException (msg : String)
  | timedOut
deriving DecidableEq, Repr

/-- `test_queue_connection` (source lines 115-137): classify the wait
outcome into a success flag and a message. -/
def test_queue_connection : WaitOutcome → Bool × String
  | .response s =>
      if s = "pong" then (true, "Queue connection successful!")
      else (false, "Unexpected response from queue: " ++ s)
  | .taskException m => (false, "Task execution failed: " ++ m)
  | .timedOut =>
      (false, "Queue connection timed out. Worker might be unavailable.")

/-- The environment variables read at startup (source lines 36-41).
Each is `none` when the variable is unset (`os.getenv` returns
`None`). -/
structure Env where
  QUARTR_API_KEY : Option String
  AWS_ACCESS_KEY_ID : Option String
  AWS_SECRET_ACCESS_KEY : Option String
  AWS_DEFAULT_REGION : Option String
  DEFAULT_S3_BUCKET : Option String
  REDIS_URL : Option String
deriving DecidableEq, Repr

/-- Python truthiness of an optional string: `None` and the empty
string are falsy. -/
def truthy : Option String → Bool
  | none => false
  | some s => !(s == "")

/-- The startup validation in `main` (source lines 153-159):
`all([QUARTR_API_KEY, AWS_ACCESS_KEY_ID, AWS_SECRET_ACCESS_KEY,
AWS_DEFAULT_REGION, REDIS_URL])`.  Returns `true` when `main`
proceeds past the check without rendering the missing-variables
error. -/
def validate_env (e : Env) : Bool :=
  truthy e.QUARTR_API_KEY && truthy e.AWS_ACCESS_KEY_ID
    && truthy e.AWS_SECRET_ACCESS_KEY && truthy e.AWS_DEFAULT_REGION
    && truthy e.REDIS_URL

/-- The default value of the S3-bucket form field (source line 200):
`DEFAULT_S3_BUCKET or ""`. -/
def s3_bucket_default (e : Env) : String :=
  e.DEFAULT_S3_BUCKET.getD ""

/-- A calendar date; Python `datetime.date` comparison is
lexicographic on (year, month, day). -/
structure Date where
  year : Nat
  month : Nat
  day : Nat
deriving DecidableEq, Repr

/-- Strict lexicographic order on dates, as Python compares them. -/
def Date.lt (a b : Date) : Bool :=
  a.year < b.year
    || (a.year == b.year
        && (a.month < b.month || (a.month == b.month && a.day < b.day)))

/-- Outcome of pressing the submit button (source lines 205-229):
either one of the inline validation errors, or the payload handed to
`process_files_task`. -/
inductive SubmitResult where
  | validationError (msg : String)
  | submitted (isins : List String) (startDate endDate : Date)
      (docTypes : List String) (bucket : String)
deriving DecidableEq, Repr

/-- Python default whitespace for `str.strip()`. -/
def pyIsSpace (c : Char) : Bool :=
  c = ' ' || c = '\t' || c = '\n' || c = '\r' || c = '\x0b' || c = '\x0c'

/-- Split a character list on the newline character, keeping empty
segments, as Python `s.split("\n")` does. -/
def pySplitChars : List Char → List (List Char)
  | [] => [[]]
  | c :: rest =>
    if c = '\n' then [] :: pySplitChars rest
    else
      match pySplitChars rest with
      | l :: ls => (c :: l) :: ls
      | [] => [[c]]

/-- Python `s.split("\n")` on a string. -/
def pySplit (s : String) : List String :=
  (pySplitChars s.data).map String.mk

/-- Python `s.strip()`: drop leading and trailing whitespace. -/
def pyStrip (s : String) : String :=
  String.mk (((s.data.dropWhile pyIsSpace).reverse.dropWhile pyIsSpace).reverse)

/-- Source line 214:
`[isin.strip() for isin in isin_input.split("\n") if isin.strip()]`
— split on newlines, strip whitespace, drop blank lines. -/
def strip_isins (input : String) : List String :=
  ((pySplit input).map pyStrip).filter (fun s => s ≠ "")

/-- The submit-button handler in `main` (source lines 205-229):
the three sequential validation checks, then the task payload. -/
def submit_form (isin_input : String) (start_date end_date : Date)
    (doc_types : List String) (s3_bucket : String) : SubmitResult :=
  if isin_input = "" ∨ s3_bucket = "" ∨ doc_types = [] then
    .validationError "Please fill in all required fields"
  else if Date.lt end_date start_date then
    .validationError "Start date must be before end date"
  else
    let isin_list := strip_isins isin_input
    if isin_list = [] then
      .validationError "Please enter at least one valid ISIN"
    else
      .submitted isin_list start_date end_date doc_types s3_bucket

end Quartr

open Quartr

/-- C8: building a job from raw identifier text trims whitespace from
each line and discards blank lines; on the scenario input the
resulting identifier list is exactly the two trimmed ISINs, in input
order, and the rest of the payload is passed through. -/
theorem C8_isin_trimming :
    submit_form "US0000000001\n\n  US0000000002  " ⟨2024, 1, 1⟩ ⟨2024, 12, 31⟩
      ["slides"] "bucket-x"
    = .submitted ["US0000000001", "US0000000002"] ⟨2024, 1, 1⟩ ⟨2024, 12, 31⟩
      ["slides"] "bucket-x" := by
  decide

/-- C6: the queue health probe classifies each wait outcome — the
sentinel response yields success; any other response yields the
unexpected-response message carrying the actual value; a task
exception yields the execution-failed message; a timeout yields the
timed-out message — and the four results are pairwise distinct (in
particular, an unexpected response "pang" is distinct from a
timeout). -/
theorem C6_probe_classification (s m : String) (hs : s ≠ "pong") :
    test_queue_connection (.response "pong") =
      (true, "Queue connection successful!")
    ∧ test_queue_connection (.response s) =
      (false, "Unexpected response from queue: " ++ s)
    ∧ test_queue_connection (.taskException m) =
      (false, "Task execution failed: " ++ m)
    ∧ test_queue_connection .timedOut =
      (false, "Queue connection timed out. Worker might be unavailable.")
    ∧ [test_queue_connection (.response "pong"),
       test_queue_connection (.response "pang"),
       test_queue_connection (.taskException "boom"),
       test_queue_connection .timedOut].Pairwise (· ≠ ·) := by
  refine ⟨by decide, ?_, rfl, rfl, by decide⟩
  simp [test_queue_connection, hs]

/-- Witness for C6 at the scenario input: the probe maps the
unexpected echo "pang" to the unexpected-response result. -/
theorem C6_probe_classification_witness :
    test_queue_connection (.response "pang") =
      (false, "Unexpected response from queue: pang") :=
  (C6_probe_classification "pang" "x" (by decide)).2.1

/-- C7: a store-read exception during a poll is caught, surfaced as a
rendered error message, and the task handle is removed from session
state. -/
theorem C7_store_exception_disposes (s : SessionState) (tid e : String)
    (hs : s.task_id = some tid) :
    check_task_status s (.error e) =
      ({ ensureContainers s with task_id := none },
       [.errorMsg ("Error checking task status: " ++ e)]) := by
  obtain ⟨t, pc, sc, rc⟩ := s
  simp only at hs
  subst hs
  simp [check_task_status, ensureContainers]

/-- Witness for C7 at a concrete state and exception message. -/
theorem C7_store_exception_disposes_witness :
    check_task_status ⟨some "t", false, false, false⟩ (.error "boom") =
      (⟨none, true, true, true⟩,
       [.errorMsg "Error checking task status: boom"]) :=
  C7_store_exception_disposes ⟨some "t", false, false, false⟩ "t" "boom" rfl

/-- C9: for an in-progress snapshot, the rendered progress fraction
is processed divided by total when total is positive, and 0 when
total is zero — the division is guarded and the zero-total branch
never divides. -/
theorem C9_progress_guarded (s : SessionState) (tid : String)
    (r : TaskResult) (hs : s.task_id = some tid)
    (hr : r.status = some "In Progress") :
    (r.total.getD 0 > 0 →
      renderedProgress (check_task_status s (.ok (some r))).2 =
        some ((r.processed.getD 0 : ℚ) / (r.total.getD 0 : ℚ)))
    ∧ (r.total.getD 0 = 0 →
      renderedProgress (check_task_status s (.ok (some r))).2 = some 0) := by
  obtain ⟨t, pc, sc, rc⟩ := s
  simp only at hs
  subst hs
  constructor <;> intro h <;>
    simp [check_task_status, ensureContainers, renderedProgress, hr, h]

/-- Witness for C9: at total 10 and processed 5 the rendered fraction
is 5/10; at total 0 it is 0. -/
theorem C9_progress_guarded_witness :
    renderedProgress (check_task_status ⟨some "t", false, false, false⟩
        (.ok (some ⟨some "In Progress", some 10, some 5, some 4, some 1,
          none⟩))).2 =
      some (((5 : ℕ) : ℚ) / ((10 : ℕ) : ℚ))
    ∧ renderedProgress (check_task_status ⟨some "t", false, false, false⟩
        (.ok (some ⟨some "In Progress", some 0, some 0, some 0, some 0,
          none⟩))).2 =
      some 0 :=
  ⟨(C9_progress_guarded ⟨some "t", false, false, false⟩ "t"
      ⟨some "In Progress", some 10, some 5, some 4, some 1, none⟩
      rfl rfl).1 (by decide),
   (C9_progress_guarded ⟨some "t", false, false, false⟩ "t"
      ⟨some "In Progress", some 0, some 0, some 0, some 0, none⟩
      rfl rfl).2 rfl⟩

/-- C1 counterexample: with task handle held, a first read of
processed 5 of 10 renders 1/2 and leaves the session state unchanged;
a second read on the same handle of processed 3 of 10 renders 3/10,
which is strictly lower — the tracker does not clamp to the last-seen
maximum. -/
theorem C1_no_clamp_counterexample :
    renderedProgress (check_task_status ⟨some "t", true, true, true⟩
        (.ok (some ⟨some "In Progress", some 10, some 5, some 4, some 1,
          none⟩))).2 = some (1/2)
    ∧ (check_task_status ⟨some "t", true, true, true⟩
        (.ok (some ⟨some "In Progress", some 10, some 5, some 4, some 1,
          none⟩))).1 = ⟨some "t", true, true, true⟩
    ∧ renderedProgress (check_task_status ⟨some "t", true, true, true⟩
        (.ok (some ⟨some "In Progress", some 10, some 3, some 2, some 1,
          none⟩))).2 = some (3/10)
    ∧ ((3 : ℚ)/10 < 1/2) := by
  refine ⟨?_, ?_, ?_, by norm_num⟩ <;>
    norm_num [check_task_status, ensureContainers, renderedProgress]

/-- C1 amended: the tracker keeps no clamp state — across two
consecutive poll ticks on the same held handle, the fraction rendered
on the second tick is computed solely from the second snapshot
(processed/total, or 0 when total is 0), regardless of what the first
snapshot reported. -/
theorem C1_no_clamp_amended (s : SessionState) (tid : String)
    (r1 r2 : TaskResult) (hs : s.task_id = some tid)
    (h1 : r1.status = some "In Progress")
    (h2 : r2.status = some "In Progress") :
    renderedProgress
        (check_task_status (check_task_status s (.ok (some r1))).1
          (.ok (some r2))).2 =
      some (if r2.total.getD 0 > 0
            then (r2.processed.getD 0 : ℚ) / (r2.total.getD 0 : ℚ)
            else 0) := by
  obtain ⟨t, pc, sc, rc⟩ := s
  simp only at hs
  subst hs
  simp [check_task_status, ensureContainers, renderedProgress, h1, h2]

/-- Witness for C1 amended: after a first read of 5 of 10, a second
read of 3 of 10 renders exactly 3/10. -/
theorem C1_no_clamp_amended_witness :
    renderedProgress (check_task_status
        (check_task_status ⟨some "t", true, true, true⟩
          (.ok (some ⟨some "In Progress", some 10, some 5, some 4, some 1,
            none⟩))).1
        (.ok (some ⟨some "In Progress", some 10, some 3, some 2, some 1,
          none⟩))).2 = some (3/10) := by
  rw [C1_no_clamp_amended ⟨some "t", true, true, true⟩ "t"
    ⟨some "In Progress", some 10, some 5, some 4, some 1, none⟩
    ⟨some "In Progress", some 10, some 3, some 2, some 1, none⟩
    rfl rfl rfl]
  norm_num

/-- C2 counterexample: an empty destination and an empty document-kind
selection produce the same combined error message, not two distinct
per-rule errors; and with destination and kinds present but the raw
identifier text empty and start after end, the code reports the
combined missing-fields error where the claimed order would report the
date-range error. -/
theorem C2_validation_order_counterexample :
    submit_form "US0000000001" ⟨2024, 1, 1⟩ ⟨2024, 12, 31⟩ ["slides"] "" =
      .validationError "Please fill in all required fields"
    ∧ submit_form "US0000000001" ⟨2024, 1, 1⟩ ⟨2024, 12, 31⟩ [] "bucket-x" =
      .validationError "Please fill in all required fields"
    ∧ submit_form "" ⟨2024, 12, 31⟩ ⟨2024, 1, 1⟩ ["slides"] "bucket-x" =
      .validationError "Please fill in all required fields" := by
  decide

/-- C2 amended: the submit handler performs three checks in order,
first failure wins: (1) raw identifier text, destination name and
document-kind selection all non-empty, with one shared error message;
(2) start at or before end, else the date-range error; (3) after
trimming and discarding blank lines at least one identifier remains,
else the no-valid-identifier error; otherwise the payload is
submitted. -/
theorem C2_validation_order_amended (input : String) (d1 d2 : Date)
    (kinds : List String) (bucket : String) :
    ((input = "" ∨ bucket = "" ∨ kinds = []) →
      submit_form input d1 d2 kinds bucket =
        .validationError "Please fill in all required fields")
    ∧ (input ≠ "" → bucket ≠ "" → kinds ≠ [] → Date.lt d2 d1 = true →
      submit_form input d1 d2 kinds bucket =
        .validationError "Start date must be before end date")
    ∧ (input ≠ "" → bucket ≠ "" → kinds ≠ [] → Date.lt d2 d1 = false →
      strip_isins input = [] →
      submit_form input d1 d2 kinds bucket =
        .validationError "Please enter at least one valid ISIN")
    ∧ (input ≠ "" → bucket ≠ "" → kinds ≠ [] → Date.lt d2 d1 = false →
      strip_isins input ≠ [] →
      submit_form input d1 d2 kinds bucket =
        .submitted (strip_isins input) d1 d2 kinds bucket) := by
  refine ⟨fun h => ?_, fun h1 h2 h3 h4 => ?_, fun h1 h2 h3 h4 h5 => ?_,
    fun h1 h2 h3 h4 h5 => ?_⟩ <;>
    simp [submit_form, *]

/-- Witness for C2 amended: one concrete input for each of the four
branches. -/
theorem C2_validation_order_amended_witness :
    submit_form "US1" ⟨2024, 1, 1⟩ ⟨2024, 1, 2⟩ ["slides"] "" =
      .validationError "Please fill in all required fields"
    ∧ submit_form "US1" ⟨2024, 1, 2⟩ ⟨2024, 1, 1⟩ ["slides"] "b" =
      .validationError "Start date must be before end date"
    ∧ submit_form "   " ⟨2024, 1, 1⟩ ⟨2024, 1, 2⟩ ["slides"] "b" =
      .validationError "Please enter at least one valid ISIN"
    ∧ submit_form "US1" ⟨2024, 1, 1⟩ ⟨2024, 1, 2⟩ ["slides"] "b" =
      .submitted ["US1"] ⟨2024, 1, 1⟩ ⟨2024, 1, 2⟩ ["slides"] "b" :=
  ⟨(C2_validation_order_amended "US1" ⟨2024, 1, 1⟩ ⟨2024, 1, 2⟩ ["slides"]
      "").1 (Or.inr (Or.inl rfl)),
   (C2_validation_order_amended "US1" ⟨2024, 1, 2⟩ ⟨2024, 1, 1⟩ ["slides"]
      "b").2.1 (by decide) (by decide) (by decide) (by decide),
   (C2_validation_order_amended "   " ⟨2024, 1, 1⟩ ⟨2024, 1, 2⟩ ["slides"]
      "b").2.2.1 (by decide) (by decide) (by decide) (by decide) (by decide),
   (C2_validation_order_amended "US1" ⟨2024, 1, 1⟩ ⟨2024, 1, 2⟩ ["slides"]
      "b").2.2.2 (by decide) (by decide) (by decide) (by decide) (by decide)⟩

/-- C3 counterexample: a Complete snapshot does dispose the handle,
but a subsequent poll on a session with no tracked handle is a silent
no-op — the state is returned unchanged and nothing (in particular no
error) is rendered. -/
theorem C3_disposal_counterexample :
    (check_task_status ⟨some "t", true, true, true⟩
        (.ok (some ⟨some "Complete", some 10, some 10, some 9, some 1,
          none⟩))).1.task_id = none
    ∧ check_task_status ⟨none, true, true, true⟩
        (.ok (some ⟨some "Complete", some 10, some 10, some 9, some 1,
          none⟩)) = (⟨none, true, true, true⟩, []) := by
  exact ⟨by simp [check_task_status, ensureContainers], rfl⟩

/-- C3 amended: reaching a terminal snapshot (Complete or Failed)
removes the task handle from session state, and a subsequent poll
after disposal is a silent no-op — the routine returns the state
unchanged with no rendering and no error. -/
theorem C3_disposal_amended (s s2 : SessionState) (tid : String)
    (r : TaskResult) (read : StoreRead) (hs : s.task_id = some tid)
    (hr : r.status = some "Complete" ∨ r.status = some "Failed")
    (h2 : s2.task_id = none) :
    (check_task_status s (.ok (some r))).1.task_id = none
    ∧ check_task_status s2 read = (s2, []) := by
  obtain ⟨t, pc, sc, rc⟩ := s
  obtain ⟨t2, pc2, sc2, rc2⟩ := s2
  simp only at hs h2
  subst hs
  subst h2
  refine ⟨?_, rfl⟩
  rcases hr with hr | hr <;>
    simp [check_task_status, ensureContainers, hr]

/-- Witness for C3 amended at a Failed snapshot and a handle-free
state. -/
theorem C3_disposal_amended_witness :
    (check_task_status ⟨some "t", true, true, true⟩
        (.ok (some ⟨some "Failed", none, none, none, none,
          some "boom"⟩))).1.task_id = none
    ∧ check_task_status ⟨none, true, true, true⟩ (.ok none) =
      (⟨none, true, true, true⟩, []) :=
  C3_disposal_amended ⟨some "t", true, true, true⟩ ⟨none, true, true, true⟩
    "t" ⟨some "Failed", none, none, none, none, some "boom"⟩ (.ok none)
    rfl (Or.inr rfl) rfl

/-- C4 counterexample: an environment with every variable set except
the default bucket passes the startup validation, so a missing default
destination name does not prevent the subsystem from proceeding — the
form field merely defaults to the empty string. -/
theorem C4_env_counterexample :
    validate_env ⟨some "key", some "id", some "secret", some "region",
      none, some "redis://host"⟩ = true
    ∧ s3_bucket_default ⟨some "key", some "id", some "secret",
      some "region", none, some "redis://host"⟩ = "" := by
  decide

/-- C4 amended: the startup check requires exactly the API key, the
AWS access key id, the AWS secret key, the AWS region and the Redis
address (queue and result-store backend) to be set and non-empty; the
default destination bucket is not checked — it never affects the
startup validation, and when absent the bucket form field defaults to
the empty string. -/
theorem C4_env_amended (e : Env) (b : Option String) :
    validate_env { e with DEFAULT_S3_BUCKET := b } = validate_env e
    ∧ (validate_env e = true ↔
        truthy e.QUARTR_API_KEY = true ∧ truthy e.AWS_ACCESS_KEY_ID = true
        ∧ truthy e.AWS_SECRET_ACCESS_KEY = true
        ∧ truthy e.AWS_DEFAULT_REGION = true
        ∧ truthy e.REDIS_URL = true)
    ∧ s3_bucket_default { e with DEFAULT_S3_BUCKET := none } = "" := by
  obtain ⟨a1, a2, a3, a4, a5, a6⟩ := e
  simp [validate_env, s3_bucket_default, and_assoc]

/-- C5 counterexample: on a poll tick where the store has no snapshot,
the tracker renders nothing at all — no waiting indication — and the
handle stays held; since the routine reads no clock, no elapsed time
can ever turn absence into a Failed transition. -/
theorem C5_absent_counterexample :
    check_task_status ⟨some "t", true, true, true⟩ (.ok none) =
      (⟨some "t", true, true, true⟩, []) := by
  rfl

/-- C5 amended: when the result store has no snapshot for the held
handle, the poll leaves the handle held and renders nothing (the only
state change is ensuring the placeholder containers exist); the code
tracks no submission time, so absence never transitions the tracker to
Failed. -/
theorem C5_absent_amended (s : SessionState) (tid : String)
    (hs : s.task_id = some tid) :
    check_task_status s (.ok none) = (ensureContainers s, [])
    ∧ (ensureContainers s).task_id = some tid := by
  obtain ⟨t, pc, sc, rc⟩ := s
  simp only at hs
  subst hs
  exact ⟨rfl, rfl⟩

/-- Witness for C5 amended at a concrete state with the containers
not yet created. -/
theorem C5_absent_amended_witness :
    check_task_status ⟨some "t", false, false, false⟩ (.ok none) =
      (⟨some "t", true, true, true⟩, [])
    ∧ (ensureContainers ⟨some "t", false, false, false⟩).task_id =
      some "t" :=
  C5_absent_amended ⟨some "t", false, false, false⟩ "t" rfl

/-- C10 counterexample: on a snapshot with the unknown status
"Pending", the tracker renders nothing and retains the handle, but the
session state is not left unchanged — the three placeholder container
fields are created. -/
theorem C10_unknown_status_counterexample :
    check_task_status ⟨some "t", false, false, false⟩
        (.ok (some ⟨some "Pending", none, none, none, none, none⟩)) =
      (⟨some "t", true, true, true⟩, [])
    ∧ (⟨some "t", true, true, true⟩ : SessionState) ≠
      ⟨some "t", false, false, false⟩ := by
  decide

/-- C10 amended: on a snapshot whose status is none of In Progress,
Complete or Failed, the tracker renders nothing and retains the task
handle; the session state is unchanged except that the three
placeholder containers are ensured to exist. -/
theorem C10_unknown_status_amended (s : SessionState) (tid : String)
    (r : TaskResult) (hs : s.task_id = some tid)
    (h1 : r.status ≠ some "In Progress")
    (h2 : r.status ≠ some "Complete")
    (h3 : r.status ≠ some "Failed") :
    check_task_status s (.ok (some r)) = (ensureContainers s, [])
    ∧ (ensureContainers s).task_id = some tid := by
  obtain ⟨t, pc, sc, rc⟩ := s
  simp only at hs
  subst hs
  exact ⟨by simp [check_task_status, ensureContainers, h1, h2, h3], rfl⟩

/-- Witness for C10 amended at a Pending snapshot. -/
theorem C10_unknown_status_amended_witness :
    check_task_status ⟨some "t", false, false, false⟩
        (.ok (some ⟨some "Pending", none, none, none, none, none⟩)) =
      (⟨some "t", true, true, true⟩, [])
    ∧ (ensureContainers ⟨some "t", false, false, false⟩).task_id =
      some "t" :=
  C10_unknown_status_amended ⟨some "t", false, false, false⟩ "t"
    ⟨some "Pending", none, none, none, none, none⟩ rfl
    (by decide) (by decide) (by decide)
